import Mathlib

/-!
Verification of the confd control plane (configuration resolution,
backend discovery, lifecycle orchestration) against its source:
`confd.go`, `config.go`, `backends/client.go`.

The Go code is shallowly embedded: the mutable package-global `config`
becomes explicit state passing, the file system / environment / DNS
resolver become an explicit `World` value, and the fatal/return error
paths of `initConfig` become an `Except` result.
-/

namespace Confd

/-- The merged configuration value (`Config` in config.go, with its two
embedded structs `backends.Config` and `template.Config` flattened, as Go
field promotion makes their fields directly addressable).  Defaults are
the Go zero values; flag defaults live in `defaultConfig`. -/
structure Config where
  -- backends.Config group (src/backends)
  AuthToken : String := ""
  AuthType : String := ""
  Backend : String := ""
  BasicAuth : Bool := false
  ClientCaKeys : String := ""
  ClientCert : String := ""
  ClientKey : String := ""
  BackendNodes : List String := []
  Password : String := ""
  Scheme : String := ""
  Table : String := ""
  Username : String := ""
  AppID : String := ""
  UserID : String := ""
  YAMLFile : List String := []
  -- template.Config group (fields visible through their uses in src)
  ConfDir : String := ""
  ConfigDir : String := ""
  TemplateDir : String := ""
  KeepStageFile : Bool := false
  Noop : Bool := false
  Prefix : String := ""
  SyncOnly : Bool := false
  PGPPrivateKey : String := ""
  -- top-level Config fields (config.go)
  Interval : Int := 0
  SecretKeyring : String := ""
  SRVDomain : String := ""
  SRVRecord : String := ""
  LogLevel : String := ""
  Watch : Bool := false
  PrintVersion : Bool := false
  ConfigFile : String := ""
  OneTime : Bool := false
  PProf : Bool := false
  deriving DecidableEq, Repr

/-- The flag defaults registered in `init()` of config.go; every other
field keeps its zero value. -/
def defaultConfig : Config :=
  { Backend := "etcdv3"
    ConfDir := "/etc/confd"
    ConfigFile := "/etc/confd/confd.toml"
    Interval := 600
    Scheme := "http" }

/-- The fields a parsed TOML configuration file may explicitly mention
(`some v`), keyed by the toml tags visible in src: the tags of
`backends.Config` and of the top-level `Config`.  `toml.Decode` into the
live `config` struct overlays exactly the mentioned fields and leaves
the rest untouched. -/
structure FileOverlay where
  AuthToken : Option String := none
  AuthType : Option String := none
  Backend : Option String := none
  BasicAuth : Option Bool := none
  ClientCaKeys : Option String := none
  ClientCert : Option String := none
  ClientKey : Option String := none
  BackendNodes : Option (List String) := none
  Password : Option String := none
  Scheme : Option String := none
  Table : Option String := none
  Username : Option String := none
  AppID : Option String := none
  UserID : Option String := none
  YAMLFile : Option (List String) := none
  Interval : Option Int := none
  SecretKeyring : Option String := none
  SRVDomain : Option String := none
  SRVRecord : Option String := none
  LogLevel : Option String := none
  Watch : Option Bool := none
  deriving DecidableEq, Repr

/-- Effect of `toml.Decode(string(configBytes), &config)` (config.go):
every field the document mentions replaces the current (flag-level)
value; unmentioned fields are untouched. -/
def applyFile (c : Config) (f : FileOverlay) : Config :=
  { c with
    AuthToken := f.AuthToken.getD c.AuthToken
    AuthType := f.AuthType.getD c.AuthType
    Backend := f.Backend.getD c.Backend
    BasicAuth := f.BasicAuth.getD c.BasicAuth
    ClientCaKeys := f.ClientCaKeys.getD c.ClientCaKeys
    ClientCert := f.ClientCert.getD c.ClientCert
    ClientKey := f.ClientKey.getD c.ClientKey
    BackendNodes := f.BackendNodes.getD c.BackendNodes
    Password := f.Password.getD c.Password
    Scheme := f.Scheme.getD c.Scheme
    Table := f.Table.getD c.Table
    Username := f.Username.getD c.Username
    AppID := f.AppID.getD c.AppID
    UserID := f.UserID.getD c.UserID
    YAMLFile := f.YAMLFile.getD c.YAMLFile
    Interval := f.Interval.getD c.Interval
    SecretKeyring := f.SecretKeyring.getD c.SecretKeyring
    SRVDomain := f.SRVDomain.getD c.SRVDomain
    SRVRecord := f.SRVRecord.getD c.SRVRecord
    LogLevel := f.LogLevel.getD c.LogLevel
    Watch := f.Watch.getD c.Watch }

/-- The three environment variables read by `processEnv` (config.go). -/
structure Env where
  CONFD_CLIENT_CAKEYS : String := ""
  CONFD_CLIENT_CERT : String := ""
  CONFD_CLIENT_KEY : String := ""
  deriving DecidableEq, Repr

/-- First statement block of `processEnv`: CA keys from the environment
only when non-empty and the field is still empty. -/
def applyEnvCaKeys (c : Config) (env : Env) : Config :=
  if 0 < env.CONFD_CLIENT_CAKEYS.length ∧ c.ClientCaKeys = "" then
    { c with ClientCaKeys := env.CONFD_CLIENT_CAKEYS }
  else c

/-- Second statement block of `processEnv`: the client certificate. -/
def applyEnvCert (c : Config) (env : Env) : Config :=
  if 0 < env.CONFD_CLIENT_CERT.length ∧ c.ClientCert = "" then
    { c with ClientCert := env.CONFD_CLIENT_CERT }
  else c

/-- Third statement block of `processEnv`: the client key. -/
def applyEnvKey (c : Config) (env : Env) : Config :=
  if 0 < env.CONFD_CLIENT_KEY.length ∧ c.ClientKey = "" then
    { c with ClientKey := env.CONFD_CLIENT_KEY }
  else c

/-- `processEnv` (config.go): the three blocks in source order. -/
def processEnv (c : Config) (env : Env) : Config :=
  applyEnvKey (applyEnvCert (applyEnvCaKeys c env) env) env

/-- One SRV answer (`net.SRV`): target host and port. -/
structure SRV where
  Target : String
  Port : Nat
  deriving DecidableEq, Repr

/-- Go `strings.TrimRight(s, ".")`: every trailing dot removed. -/
def trimRightDots (s : String) : String :=
  String.mk ((s.data.reverse.dropWhile (fun ch => ch == '.')).reverse)

/-- Go `net.JoinHostPort`: a host containing a colon is bracketed,
otherwise host and port are joined with a colon. -/
def joinHostPort (host port : String) : String :=
  if host.data.contains ':' then "[" ++ host ++ "]:" ++ port
  else host ++ ":" ++ port

/-- Body of the loop in `getBackendNodesFromSRV`: each answer, in
resolver order, becomes
`JoinHostPort(TrimRight(target, "."), FormatUint(port, 10))`. -/
def srvFormat (addrs : List SRV) : List String :=
  addrs.map (fun srv => joinHostPort (trimRightDots srv.Target) (Nat.repr srv.Port))

/-- `getBackendNodesFromSRV` (config.go): look the record up and format
every answer in resolver order.  On lookup failure the error is
returned (the nodes accumulated so far, always empty, are discarded by
the caller). -/
def getBackendNodesFromSRV (lookupSRV : String → Except String (List SRV))
    (record : String) : Except String (List String) :=
  match lookupSRV record with
  | Except.error e => Except.error e
  | Except.ok addrs => Except.ok (srvFormat addrs)

/-- Whether a path is absolute: its first character is the separator. -/
def isRooted (p : String) : Bool :=
  match p.data with
  | [] => false
  | ch :: _ => ch == '/'

/-- Lexical path cleaning, modelling Go `path/filepath.Clean` on Unix
paths: repeated separators and `.` components vanish, `..` components
are resolved against the preceding components (dropped at the root, kept
leading when relative); the empty path cleans to `.`. -/
def filepathClean (p : String) : String :=
  if p = "" then "."
  else
    let rooted := isRooted p
    let segs := (p.data.splitOn '/').filter
      (fun s => !s.isEmpty && !(s == ['.']))
    let out := segs.foldl
      (fun acc seg =>
        if seg == ['.', '.'] then
          match acc with
          | [] => if rooted then [] else [['.', '.']]
          | last :: rest => if last == ['.', '.'] then seg :: last :: rest else rest
        else seg :: acc) []
    let body := List.intercalate ['/'] out.reverse
    if rooted then String.mk ('/' :: body)
    else if body.isEmpty then "." else String.mk body

/-- Go `path/filepath.Join` on two elements: empty elements are dropped,
the rest joined with the separator and cleaned; both empty yields "". -/
def filepathJoin (a b : String) : String :=
  if a = "" then (if b = "" then "" else filepathClean b)
  else if b = "" then filepathClean a
  else filepathClean (a ++ "/" ++ b)

/-- Outcome of `os.Stat` + `ioutil.ReadFile` + `toml.Decode` on the
configured config-file path (config.go): absent (stat says not-exist),
unreadable, malformed, or parsed into an overlay. -/
inductive ConfigFileState where
  | absent
  | readError (msg : String)
  | decodeError (msg : String)
  | parsed (f : FileOverlay)

/-- The external world `initConfig` consults: config-file state, process
environment, keyring file contents by path, and the DNS SRV resolver. -/
structure World where
  configFile : ConfigFileState
  env : Env := {}
  keyringFile : String → Except String String := fun _ => Except.error "open: no such file"
  lookupSRV : String → Except String (List SRV) := fun _ => Except.error "no such host"
  newClientOk : Bool := true

/-- The ways `initConfig` can abort: `return err` after the file read or
TOML decode, `log.Fatal` on the keyring (open or read), or `return` of
the wrapped SRV lookup error.  All of them end resolution. -/
inductive InitError where
  | fileRead (msg : String)
  | tomlDecode (msg : String)
  | keyring (msg : String)
  | srv (msg : String)
  deriving DecidableEq, Repr

/-- First block of `initConfig` (config.go): skip an absent file,
otherwise read and decode it over the flag-level config. -/
def loadFile (c : Config) (w : World) : Except InitError Config :=
  match w.configFile with
  | ConfigFileState.absent => Except.ok c
  | ConfigFileState.readError m => Except.error (InitError.fileRead m)
  | ConfigFileState.decodeError m => Except.error (InitError.tomlDecode m)
  | ConfigFileState.parsed f => Except.ok (applyFile c f)

/-- Keyring block of `initConfig`: when `SecretKeyring` is set, open and
read the file into `PGPPrivateKey`; either failure is `log.Fatal`
(resolution aborts). -/
def loadKeyring (c : Config) (w : World) : Except InitError Config :=
  if c.SecretKeyring ≠ "" then
    match w.keyringFile c.SecretKeyring with
    | Except.error m => Except.error (InitError.keyring m)
    | Except.ok contents => Except.ok { c with PGPPrivateKey := contents }
  else Except.ok c

/-- SRV-record derivation in `initConfig`: with a domain set and no
explicit record, the record becomes `_{backend}._tcp.{domain}.`. -/
def deriveSRVRecord (c : Config) : Config :=
  if c.SRVDomain ≠ "" ∧ c.SRVRecord = "" then
    { c with SRVRecord := "_" ++ c.Backend ++ "._tcp." ++ c.SRVDomain ++ "." }
  else c

/-- SRV-resolution block of `initConfig`: with a record set, a failed
lookup aborts with the wrapped error and a successful one replaces
`BackendNodes` with the discovery result. -/
def resolveSRVNodes (c : Config) (w : World) : Except InitError Config :=
  if c.SRVRecord ≠ "" then
    match getBackendNodesFromSRV w.lookupSRV c.SRVRecord with
    | Except.error e => Except.error (InitError.srv ("Cannot get nodes from SRV records " ++ e))
    | Except.ok srvNodes => Except.ok { c with BackendNodes := srvNodes }
  else Except.ok c

/-- Default-node block of `initConfig`: an empty node list becomes the
single default node. -/
def defaultNodes (c : Config) : Config :=
  if c.BackendNodes.length = 0 then { c with BackendNodes := ["127.0.0.1:2379"] } else c

/-- Final block of `initConfig`: the two directories are derived from
`ConfDir`, unconditionally overwriting whatever was there. -/
def deriveDirs (c : Config) : Config :=
  { c with
    ConfigDir := filepathJoin c.ConfDir "conf.d"
    TemplateDir := filepathJoin c.ConfDir "templates" }

/-- `initConfig` up to and including the keyring block: file overlay,
then `processEnv`, then the keyring (the `log.SetLevel` statement does
not touch the configuration). -/
def afterKeyring (c : Config) (w : World) : Except InitError Config :=
  match loadFile c w with
  | Except.error e => Except.error e
  | Except.ok c1 => loadKeyring (processEnv c1 w.env) w

/-- Remainder of `initConfig` after the keyring block: SRV derivation
and resolution, default nodes, derived directories. -/
def finishConfig (c : Config) (w : World) : Except InitError Config :=
  match resolveSRVNodes (deriveSRVRecord c) w with
  | Except.error e => Except.error e
  | Except.ok c5 => Except.ok (deriveDirs (defaultNodes c5))

/-- `initConfig` (config.go) in source order. -/
def initConfig (c : Config) (w : World) : Except InitError Config :=
  match afterKeyring c w with
  | Except.error e => Except.error e
  | Except.ok c3 => finishConfig c3 w

/-- Whether `main` (confd.go) reaches `go processor.Process()`: printing
the version, any `initConfig` failure (its own fatals included), a
failed store-client construction, and one-time mode all exit first. -/
def processorStarted (c : Config) (w : World) : Bool :=
  if c.PrintVersion then false
  else
    match initConfig c w with
    | Except.error _ => false
    | Except.ok c2 =>
        if !w.newClientOk then false
        else if c2.OneTime then false
        else true

/-! Lifecycle orchestrator (confd.go, continuous mode): the supervisory
`for { select ... } }` loop over the three channels. -/

/-- The three events the supervisory select can take: a report from the
error channel, an OS signal (SIGINT/SIGTERM) from the signal channel, or
a receive on the done channel. -/
inductive Event where
  | errReport (msg : String)
  | osSignal
  | doneSignal
  deriving DecidableEq, Repr

/-- Orchestrator-visible state: whether `stopChan` and `doneChan` have
been closed by the orchestrator, the exit status once `os.Exit` ran, and
the messages passed to `log.Error`. -/
structure LoopState where
  stopClosed : Bool := false
  doneClosed : Bool := false
  exitCode : Option Nat := none
  logged : List String := []
  deriving DecidableEq, Repr

/-- State just after `go processor.Process()`: nothing closed, nothing
logged, process running. -/
def initialLoopState : LoopState := {}

/-- One iteration of the supervisory loop (confd.go): an error report is
logged and the loop continues; a captured signal logs and runs
`close(doneChan)`; a receive on `doneChan` runs `os.Exit(0)`. -/
def loopStep (s : LoopState) : Event → LoopState
  | Event.errReport m => { s with logged := s.logged ++ [m] }
  | Event.osSignal => { s with doneClosed := true }
  | Event.doneSignal => { s with exitCode := some 0 }

/-- Capacity of the error-report channel: `errChan := make(chan error, 10)`
in confd.go. -/
def errChanCapacity : Nat := 10

/-- Buffered-channel send on the error channel: appends while fewer than
`errChanCapacity` reports are pending; with a full buffer the send does
not complete (`none`) and the sending task blocks. -/
def chanTrySend (q : List String) (m : String) : Option (List String) :=
  if q.length < errChanCapacity then some (q ++ [m]) else none

/-- Buffered-channel receive on the error channel: takes the oldest
pending report, freeing one slot. -/
def chanRecv (q : List String) : Option (String × List String) :=
  match q with
  | [] => none
  | m :: rest => some (m, rest)

/-! Store-client factory (src/backends/client.go). -/

/-- `backends.Config` (src/backends), the argument of `backends.New`;
`main` passes the embedded `config.BackendsConfig`. -/
structure BackendsConfig where
  AuthToken : String := ""
  AuthType : String := ""
  Backend : String := ""
  BasicAuth : Bool := false
  ClientCaKeys : String := ""
  ClientCert : String := ""
  ClientKey : String := ""
  BackendNodes : List String := []
  Password : String := ""
  Scheme : String := ""
  Table : String := ""
  Username : String := ""
  AppID : String := ""
  UserID : String := ""
  YAMLFile : List String := []
  deriving DecidableEq, Repr

/-- The embedded `backends.Config` portion of the merged configuration. -/
def Config.backendsConfig (c : Config) : BackendsConfig :=
  { AuthToken := c.AuthToken
    AuthType := c.AuthType
    Backend := c.Backend
    BasicAuth := c.BasicAuth
    ClientCaKeys := c.ClientCaKeys
    ClientCert := c.ClientCert
    ClientKey := c.ClientKey
    BackendNodes := c.BackendNodes
    Password := c.Password
    Scheme := c.Scheme
    Table := c.Table
    Username := c.Username
    AppID := c.AppID
    UserID := c.UserID
    YAMLFile := c.YAMLFile }

/-- The store-client constructions the factory can perform.  The visible
source of `backends.New` only ever invokes the etcdv3 constructor; the
constructor call is recorded together with the arguments passed. -/
inductive StoreClientCall where
  | etcdv3 (machines : List String) (cert : String) (key : String)
      (caCert : String) (basicAuth : Bool) (username : String) (password : String)
  deriving DecidableEq, Repr

/-- `backends.New` (src/backends/client.go): an empty backend name is
defaulted to "etcdv3" on a local copy (a write observable nowhere), and
`etcdv3.NewEtcdClient` is invoked unconditionally with the node list and
credential fields, whatever `Backend` holds. -/
def backendsNew (c : BackendsConfig) : StoreClientCall :=
  StoreClientCall.etcdv3 c.BackendNodes c.ClientCert c.ClientKey
    c.ClientCaKeys c.BasicAuth c.Username c.Password

/-- Node list of a resolution result, for stating node-list claims:
`some` of the final `BackendNodes` on success, `none` on failure. -/
def resolvedNodes (r : Except InitError Config) : Option (List String) :=
  match r with
  | Except.ok c => some c.BackendNodes
  | Except.error _ => none

/-! Concrete fixtures for witnesses and counterexamples. -/

/-- A world with no config file, empty environment, no keyring file and
a failing resolver: the state of a bare machine. -/
def emptyWorld : World := { configFile := ConfigFileState.absent }

/-- What resolution yields on `defaultConfig` in `emptyWorld`. -/
def resolvedDefaultConfig : Config :=
  { defaultConfig with
    BackendNodes := ["127.0.0.1:2379"]
    ConfigDir := "/etc/confd/conf.d"
    TemplateDir := "/etc/confd/templates" }

/-- Flag-level config with an explicit `-backend consul`. -/
def flagBackendConsul : Config := { defaultConfig with Backend := "consul" }

/-- A config file that mentions exactly the backend field. -/
def fileBackendEtcd : FileOverlay := { Backend := some "etcd" }

/-- Flag-level config with a secret-keyring path set. -/
def keyringCfg : Config := { defaultConfig with SecretKeyring := "/missing/secring.gpg" }

/-- World where opening the keyring file fails. -/
def keyringWorld : World :=
  { configFile := ConfigFileState.absent
    keyringFile := fun _ => Except.error "open /missing/secring.gpg: no such file or directory" }

/-- Flag-level config with an explicit SRV record and explicit nodes. -/
def srvCfg : Config :=
  { defaultConfig with
    SRVRecord := "_etcd-client._tcp.example.com"
    BackendNodes := ["9.9.9.9:1111"] }

/-- Two SRV answers, in resolver order, with trailing dots on the hosts. -/
def srvAddrs : List SRV :=
  [{ Target := "a.example.com.", Port := 2379 }, { Target := "b.example.com.", Port := 2379 }]

/-- World whose resolver returns `srvAddrs` for every record. -/
def srvOkWorld : World :=
  { configFile := ConfigFileState.absent
    lookupSRV := fun _ => Except.ok srvAddrs }

/-- World whose resolver succeeds with zero answers. -/
def srvEmptyWorld : World :=
  { configFile := ConfigFileState.absent
    lookupSRV := fun _ => Except.ok [] }

/-- World whose resolver fails every lookup. -/
def srvFailWorld : World :=
  { configFile := ConfigFileState.absent
    lookupSRV := fun _ => Except.error "lookup _etcd-client._tcp.example.com: no such host" }

/-- Config for the derived-record example: domain and backend set, no
explicit record. -/
def srvDomainCfg : Config :=
  { defaultConfig with
    Backend := "consul"
    SRVDomain := "example.com" }

/-- A config file that mentions both a node list and a service record. -/
def fileNodesAndRecord : FileOverlay :=
  { BackendNodes := some ["file-node:1111"]
    SRVRecord := some "_etcd-client._tcp.example.com" }

/-- World with that config file present and a working resolver. -/
def fileNodesWorld : World :=
  { configFile := ConfigFileState.parsed fileNodesAndRecord
    lookupSRV := fun _ => Except.ok srvAddrs }

/-! Helper lemmas shared by the claim theorems. -/

theorem deriveSRVRecord_pgp (c : Config) :
    (deriveSRVRecord c).PGPPrivateKey = c.PGPPrivateKey := by
  unfold deriveSRVRecord; split <;> rfl

theorem resolveSRVNodes_pgp (c : Config) (w : World) (c' : Config)
    (h : resolveSRVNodes c w = Except.ok c') :
    c'.PGPPrivateKey = c.PGPPrivateKey := by
  unfold resolveSRVNodes at h
  split at h
  · split at h
    · exact Except.noConfusion h
    · rw [Except.ok.injEq] at h; subst h; rfl
  · rw [Except.ok.injEq] at h; subst h; rfl

theorem defaultNodes_pgp (c : Config) :
    (defaultNodes c).PGPPrivateKey = c.PGPPrivateKey := by
  unfold defaultNodes; split <;> rfl

theorem deriveDirs_pgp (c : Config) :
    (deriveDirs c).PGPPrivateKey = c.PGPPrivateKey := rfl

theorem finishConfig_pgp (c : Config) (w : World) (c' : Config)
    (h : finishConfig c w = Except.ok c') :
    c'.PGPPrivateKey = c.PGPPrivateKey := by
  unfold finishConfig at h
  split at h
  · exact Except.noConfusion h
  · rename_i c5 hr
    rw [Except.ok.injEq] at h
    subst h
    rw [deriveDirs_pgp, defaultNodes_pgp, resolveSRVNodes_pgp _ _ _ hr, deriveSRVRecord_pgp]

theorem initConfig_ok_dirs (c : Config) (w : World) (c' : Config)
    (h : initConfig c w = Except.ok c') :
    c'.ConfigDir = filepathJoin c'.ConfDir "conf.d" ∧
    c'.TemplateDir = filepathJoin c'.ConfDir "templates" := by
  unfold initConfig at h
  split at h
  · exact Except.noConfusion h
  · rename_i c3 hak
    unfold finishConfig at h
    split at h
    · exact Except.noConfusion h
    · rw [Except.ok.injEq] at h
      subst h
      exact ⟨rfl, rfl⟩

/-! Claim theorems. -/

/-- C7: whenever the discovery domain is non-empty and no explicit
service record is set, resolution derives the record as
`_{backend}._tcp.{domain}.`, trailing dot included. -/
theorem srv_record_derived (c : Config)
    (hdom : c.SRVDomain ≠ "") (hrec : c.SRVRecord = "") :
    (deriveSRVRecord c).SRVRecord =
      "_" ++ c.Backend ++ "._tcp." ++ c.SRVDomain ++ "." := by
  unfold deriveSRVRecord
  rw [if_pos ⟨hdom, hrec⟩]

/-- Witness for C7: with SRVDomain "example.com" and backend "consul"
the derived record is "_consul._tcp.example.com.". -/
theorem srv_record_derived_witness :
    (deriveSRVRecord srvDomainCfg).SRVRecord = "_consul._tcp.example.com." :=
  (srv_record_derived srvDomainCfg (by decide) rfl).trans rfl

/-- C10: the store-client factory constructs the etcdv3 client for every
backend configuration, passing the node list and credential fields, and
the value of the backend kind name never changes the outcome. -/
theorem factory_always_etcdv3 (c : BackendsConfig) :
    backendsNew c =
      StoreClientCall.etcdv3 c.BackendNodes c.ClientCert c.ClientKey
        c.ClientCaKeys c.BasicAuth c.Username c.Password ∧
    ∀ name : String, backendsNew { c with Backend := name } = backendsNew c :=
  ⟨rfl, fun _ => rfl⟩

/-- C1 counterexample: at the state right after the processor launch, an
OS termination request leaves the stop channel untouched (the claim says
the stop channel is signaled); what the loop closes is the done channel,
and the very next receive on it exits with status 0. -/
theorem signal_leaves_stop_open :
    (loopStep initialLoopState Event.osSignal).stopClosed = false ∧
    (loopStep initialLoopState Event.osSignal).doneClosed = true ∧
    (loopStep (loopStep initialLoopState Event.osSignal) Event.doneSignal).exitCode = some 0 :=
  ⟨rfl, rfl, rfl⟩

/-- C1 amended: on SIGINT/SIGTERM the supervisory loop closes the done
(completion) channel itself — never the stop channel, which no loop
event closes — making the done case immediately selectable, and the
subsequent receive on the closed done channel exits with status 0. -/
theorem signal_closes_done_and_exits :
    (∀ s : LoopState, loopStep s Event.osSignal = { s with doneClosed := true }) ∧
    (∀ (s : LoopState) (ev : Event), (loopStep s ev).stopClosed = s.stopClosed) ∧
    (∀ s : LoopState, (loopStep s Event.doneSignal).exitCode = some 0) :=
  ⟨fun _ => rfl, fun s ev => by cases ev <;> rfl, fun _ => rfl⟩

/-- C4: the error-report queue has capacity exactly 10; a send fails to
complete (the sender blocks) exactly when 10 reports are pending, a
completed send appends the report so nothing is dropped, draining one
report frees a slot for the blocked send, and the supervisory loop logs
every received report and keeps supervising. -/
theorem errchan_backpressure :
    errChanCapacity = 10 ∧
    (∀ (q : List String) (m : String),
      chanTrySend q m = none ↔ errChanCapacity ≤ q.length) ∧
    (∀ (q : List String) (m : String) (q2 : List String),
      chanTrySend q m = some q2 → q2 = q ++ [m]) ∧
    (∀ (q : List String) (m m2 : String) (rest : List String),
      q.length = errChanCapacity → chanRecv q = some (m2, rest) →
      (chanTrySend rest m).isSome = true) ∧
    (∀ (s : LoopState) (m : String),
      (loopStep s (Event.errReport m)).logged = s.logged ++ [m] ∧
      (loopStep s (Event.errReport m)).exitCode = s.exitCode) := by
  refine ⟨rfl, ?_, ?_, ?_, fun s m => ⟨rfl, rfl⟩⟩
  · intro q m
    unfold chanTrySend errChanCapacity
    split
    · rename_i h; simp; omega
    · rename_i h; simp; omega
  · intro q m q2 h
    unfold chanTrySend at h
    split at h
    · injection h with h; exact h.symm
    · exact Option.noConfusion h
  · intro q m m2 rest hlen hr
    cases q with
    | nil => exact Option.noConfusion hr
    | cons a as =>
      cases hr
      have hlt : rest.length < errChanCapacity := by
        unfold errChanCapacity at hlen ⊢
        simp at hlen
        omega
      simp [chanTrySend, hlt]

/-- Witness for C4: with ten reports pending the eleventh send blocks. -/
theorem errchan_backpressure_witness :
    chanTrySend (List.replicate errChanCapacity "e") "x" = none :=
  (errchan_backpressure.2.1 (List.replicate errChanCapacity "e") "x").mpr (by decide)

/-- C2 counterexample: a configuration file that explicitly mentions
both the node list and a service record.  The file-mentioned node list
does not survive to the resolved configuration: the discovery step
replaces it with the lookup result. -/
theorem file_nodes_replaced_by_discovery :
    fileNodesAndRecord.BackendNodes = some ["file-node:1111"] ∧
    resolvedNodes (initConfig defaultConfig fileNodesWorld) =
      some ["a.example.com:2379", "b.example.com:2379"] :=
  ⟨rfl, rfl⟩

/-- C2 amended: every field the configuration file explicitly mentions
takes the file's value at the file-overlay step, whatever value the
command-line flags put there first (file-wins precedence over flags); a
later resolution step may still overwrite such a field, as discovery
does to the node list when a service record is set. -/
theorem file_wins_over_flags (c : Config) (f : FileOverlay) :
    (∀ (w : World), w.configFile = ConfigFileState.parsed f →
      loadFile c w = Except.ok (applyFile c f)) ∧
    (∀ v, f.Backend = some v → (applyFile c f).Backend = v) ∧
    (∀ v, f.AuthToken = some v → (applyFile c f).AuthToken = v) ∧
    (∀ v, f.AuthType = some v → (applyFile c f).AuthType = v) ∧
    (∀ v, f.BasicAuth = some v → (applyFile c f).BasicAuth = v) ∧
    (∀ v, f.ClientCaKeys = some v → (applyFile c f).ClientCaKeys = v) ∧
    (∀ v, f.ClientCert = some v → (applyFile c f).ClientCert = v) ∧
    (∀ v, f.ClientKey = some v → (applyFile c f).ClientKey = v) ∧
    (∀ v, f.BackendNodes = some v → (applyFile c f).BackendNodes = v) ∧
    (∀ v, f.Password = some v → (applyFile c f).Password = v) ∧
    (∀ v, f.Scheme = some v → (applyFile c f).Scheme = v) ∧
    (∀ v, f.Table = some v → (applyFile c f).Table = v) ∧
    (∀ v, f.Username = some v → (applyFile c f).Username = v) ∧
    (∀ v, f.AppID = some v → (applyFile c f).AppID = v) ∧
    (∀ v, f.UserID = some v → (applyFile c f).UserID = v) ∧
    (∀ v, f.YAMLFile = some v → (applyFile c f).YAMLFile = v) ∧
    (∀ v, f.Interval = some v → (applyFile c f).Interval = v) ∧
    (∀ v, f.SecretKeyring = some v → (applyFile c f).SecretKeyring = v) ∧
    (∀ v, f.SRVDomain = some v → (applyFile c f).SRVDomain = v) ∧
    (∀ v, f.SRVRecord = some v → (applyFile c f).SRVRecord = v) ∧
    (∀ v, f.LogLevel = some v → (applyFile c f).LogLevel = v) ∧
    (∀ v, f.Watch = some v → (applyFile c f).Watch = v) := by
  refine ⟨fun w hw => ?_, ?_⟩
  · unfold loadFile
    rw [hw]
  · repeat' apply And.intro
    all_goals intro v h
    all_goals simp [applyFile, h]

/-- Witness for C2: the flag says consul, the file says etcd, the
overlay result says etcd. -/
theorem file_wins_over_flags_witness :
    (applyFile flagBackendConsul fileBackendEtcd).Backend = "etcd" :=
  (file_wins_over_flags flagBackendConsul fileBackendEtcd).2.1 "etcd" rfl

/-- C9: the environment overlay touches at most the three TLS
client-material fields, each taken from its variable only when the
variable is non-empty and the field is still empty after the flag and
file steps; every other configuration field is unchanged. -/
theorem env_overlay_frame (c : Config) (env : Env) :
    ((processEnv c env).ClientCaKeys =
      if 0 < env.CONFD_CLIENT_CAKEYS.length ∧ c.ClientCaKeys = ""
      then env.CONFD_CLIENT_CAKEYS else c.ClientCaKeys) ∧
    ((processEnv c env).ClientCert =
      if 0 < env.CONFD_CLIENT_CERT.length ∧ c.ClientCert = ""
      then env.CONFD_CLIENT_CERT else c.ClientCert) ∧
    ((processEnv c env).ClientKey =
      if 0 < env.CONFD_CLIENT_KEY.length ∧ c.ClientKey = ""
      then env.CONFD_CLIENT_KEY else c.ClientKey) ∧
    (processEnv c env).AuthToken = c.AuthToken ∧
    (processEnv c env).AuthType = c.AuthType ∧
    (processEnv c env).Backend = c.Backend ∧
    (processEnv c env).BasicAuth = c.BasicAuth ∧
    (processEnv c env).BackendNodes = c.BackendNodes ∧
    (processEnv c env).Password = c.Password ∧
    (processEnv c env).Scheme = c.Scheme ∧
    (processEnv c env).Table = c.Table ∧
    (processEnv c env).Username = c.Username ∧
    (processEnv c env).AppID = c.AppID ∧
    (processEnv c env).UserID = c.UserID ∧
    (processEnv c env).YAMLFile = c.YAMLFile ∧
    (processEnv c env).ConfDir = c.ConfDir ∧
    (processEnv c env).ConfigDir = c.ConfigDir ∧
    (processEnv c env).TemplateDir = c.TemplateDir ∧
    (processEnv c env).KeepStageFile = c.KeepStageFile ∧
    (processEnv c env).Noop = c.Noop ∧
    (processEnv c env).Prefix = c.Prefix ∧
    (processEnv c env).SyncOnly = c.SyncOnly ∧
    (processEnv c env).PGPPrivateKey = c.PGPPrivateKey ∧
    (processEnv c env).Interval = c.Interval ∧
    (processEnv c env).SecretKeyring = c.SecretKeyring ∧
    (processEnv c env).SRVDomain = c.SRVDomain ∧
    (processEnv c env).SRVRecord = c.SRVRecord ∧
    (processEnv c env).LogLevel = c.LogLevel ∧
    (processEnv c env).Watch = c.Watch ∧
    (processEnv c env).PrintVersion = c.PrintVersion ∧
    (processEnv c env).ConfigFile = c.ConfigFile ∧
    (processEnv c env).OneTime = c.OneTime ∧
    (processEnv c env).PProf = c.PProf := by
  by_cases h1 : 0 < env.CONFD_CLIENT_CAKEYS.length ∧ c.ClientCaKeys = "" <;>
    by_cases h2 : 0 < env.CONFD_CLIENT_CERT.length ∧ c.ClientCert = "" <;>
      by_cases h3 : 0 < env.CONFD_CLIENT_KEY.length ∧ c.ClientKey = "" <;>
        simp [processEnv, applyEnvCaKeys, applyEnvCert, applyEnvKey, h1, h2, h3]

/-- C3: with a secret-keyring path set after the flag/file/env steps, an
unopenable or unreadable keyring file makes resolution fail with that
error and no processor task is ever started; on success the file's full
contents become the configured key material. -/
theorem keyring_fatal (c : Config) (w : World) (c2 : Config)
    (hfe : (loadFile c w).map (fun c1 => processEnv c1 w.env) = Except.ok c2)
    (hkr : c2.SecretKeyring ≠ "") :
    (∀ m, w.keyringFile c2.SecretKeyring = Except.error m →
      initConfig c w = Except.error (InitError.keyring m) ∧
      processorStarted c w = false) ∧
    (∀ s c', w.keyringFile c2.SecretKeyring = Except.ok s →
      initConfig c w = Except.ok c' → c'.PGPPrivateKey = s) := by
  cases hLF : loadFile c w with
  | error e =>
      rw [hLF] at hfe
      simp [Except.map] at hfe
  | ok c1 =>
      rw [hLF] at hfe
      simp [Except.map] at hfe
      constructor
      · intro m hm
        have hak : afterKeyring c w = Except.error (InitError.keyring m) := by
          unfold afterKeyring
          rw [hLF]
          show loadKeyring (processEnv c1 w.env) w = _
          rw [hfe]
          unfold loadKeyring
          rw [if_pos hkr, hm]
        have hinit : initConfig c w = Except.error (InitError.keyring m) := by
          unfold initConfig
          rw [hak]
        refine ⟨hinit, ?_⟩
        unfold processorStarted
        rw [hinit]
        split <;> rfl
      · intro s c' hs hinit
        have hak : afterKeyring c w = Except.ok { c2 with PGPPrivateKey := s } := by
          unfold afterKeyring
          rw [hLF]
          show loadKeyring (processEnv c1 w.env) w = _
          rw [hfe]
          unfold loadKeyring
          rw [if_pos hkr, hs]
        unfold initConfig at hinit
        rw [hak] at hinit
        rw [finishConfig_pgp _ _ _ hinit]

/-- Witness for C3: a keyring path pointing at a nonexistent file is a
fatal resolution error and the processor never starts. -/
theorem keyring_fatal_witness :
    initConfig keyringCfg keyringWorld =
      Except.error (InitError.keyring "open /missing/secring.gpg: no such file or directory") ∧
    processorStarted keyringCfg keyringWorld = false :=
  (keyring_fatal keyringCfg keyringWorld (processEnv keyringCfg keyringWorld.env)
    rfl (by decide)).1 "open /missing/secring.gpg: no such file or directory" rfl

/-- C5 counterexample: a successful lookup with zero answers.  The node
list does not end up equal to the (empty) discovery result: the
default-node step overwrites it with the single default node. -/
theorem srv_empty_result_defaulted :
    srvEmptyWorld.lookupSRV srvCfg.SRVRecord = Except.ok [] ∧
    srvFormat [] = [] ∧
    resolvedNodes (initConfig srvCfg srvEmptyWorld) = some ["127.0.0.1:2379"] :=
  ⟨rfl, rfl, rfl⟩

/-- C5 amended: whenever the service record is set (explicitly or
derived) and its lookup succeeds with at least one answer, the resolved
node list is exactly the discovery result — one endpoint per answer,
trailing dots stripped from the host, resolver order preserved — and
any previously configured nodes are discarded; a successful lookup with
zero answers instead yields the default node list. -/
theorem srv_replaces_nodes (c : Config) (w : World) (c3 : Config)
    (hk : afterKeyring c w = Except.ok c3)
    (addrs : List SRV)
    (hrec : (deriveSRVRecord c3).SRVRecord ≠ "")
    (hlk : w.lookupSRV (deriveSRVRecord c3).SRVRecord = Except.ok addrs)
    (hne : addrs ≠ []) :
    resolvedNodes (initConfig c w) = some (srvFormat addrs) := by
  have hres : resolveSRVNodes (deriveSRVRecord c3) w =
      Except.ok { deriveSRVRecord c3 with BackendNodes := srvFormat addrs } := by
    unfold resolveSRVNodes getBackendNodesFromSRV
    rw [if_pos hrec, hlk]
  have h1 : initConfig c w =
      Except.ok (deriveDirs (defaultNodes
        { deriveSRVRecord c3 with BackendNodes := srvFormat addrs })) := by
    unfold initConfig
    rw [hk]
    show finishConfig c3 w = _
    unfold finishConfig
    rw [hres]
  have hlen : ¬ ({ deriveSRVRecord c3 with BackendNodes := srvFormat addrs } : Config).BackendNodes.length = 0 := by
    simp [srvFormat]
    exact hne
  have h2 : defaultNodes { deriveSRVRecord c3 with BackendNodes := srvFormat addrs } =
      { deriveSRVRecord c3 with BackendNodes := srvFormat addrs } := by
    unfold defaultNodes
    rw [if_neg hlen]
  rw [h1, h2]
  rfl

/-- Witness for C5: explicit record, two answers with trailing dots, in
resolver order; previously configured nodes are discarded. -/
theorem srv_replaces_nodes_witness :
    resolvedNodes (initConfig srvCfg srvOkWorld) =
      some ["a.example.com:2379", "b.example.com:2379"] :=
  (srv_replaces_nodes srvCfg srvOkWorld srvCfg rfl srvAddrs
    (by decide) rfl (by decide)).trans rfl

/-- C6: a failed service-record lookup makes resolution return a single
error wrapping the underlying lookup error; resolution does not continue
past the failure and no processor task is started. -/
theorem srv_lookup_failure_fatal (c : Config) (w : World) (c3 : Config)
    (hk : afterKeyring c w = Except.ok c3)
    (hrec : (deriveSRVRecord c3).SRVRecord ≠ "")
    (e : String)
    (hlk : w.lookupSRV (deriveSRVRecord c3).SRVRecord = Except.error e) :
    initConfig c w =
      Except.error (InitError.srv ("Cannot get nodes from SRV records " ++ e)) ∧
    processorStarted c w = false := by
  have hres : resolveSRVNodes (deriveSRVRecord c3) w =
      Except.error (InitError.srv ("Cannot get nodes from SRV records " ++ e)) := by
    unfold resolveSRVNodes getBackendNodesFromSRV
    rw [if_pos hrec, hlk]
  have hinit : initConfig c w =
      Except.error (InitError.srv ("Cannot get nodes from SRV records " ++ e)) := by
    unfold initConfig
    rw [hk]
    show finishConfig c3 w = _
    unfold finishConfig
    rw [hres]
  refine ⟨hinit, ?_⟩
  unfold processorStarted
  rw [hinit]
  split <;> rfl

/-- Witness for C6: a failing resolver turns into the wrapped fatal
resolution error and the processor never starts. -/
theorem srv_lookup_failure_fatal_witness :
    initConfig srvCfg srvFailWorld =
      Except.error (InitError.srv ("Cannot get nodes from SRV records " ++
        "lookup _etcd-client._tcp.example.com: no such host")) ∧
    processorStarted srvCfg srvFailWorld = false :=
  srv_lookup_failure_fatal srvCfg srvFailWorld srvCfg rfl (by decide)
    "lookup _etcd-client._tcp.example.com: no such host" rfl

/-- C8: with no config file, no environment variables and only the
built-in flag defaults, resolution yields backend "etcdv3", the single
default node, interval 600 and the two directories derived from
ConfDir; and in every successful resolution the two directories equal
ConfDir joined with "conf.d" and "templates" (set unconditionally at the
end, hence never independently settable). -/
theorem default_resolution :
    initConfig defaultConfig emptyWorld = Except.ok resolvedDefaultConfig ∧
    resolvedDefaultConfig.Backend = "etcdv3" ∧
    resolvedDefaultConfig.BackendNodes = ["127.0.0.1:2379"] ∧
    resolvedDefaultConfig.Interval = 600 ∧
    resolvedDefaultConfig.ConfigDir = filepathJoin resolvedDefaultConfig.ConfDir "conf.d" ∧
    resolvedDefaultConfig.TemplateDir = filepathJoin resolvedDefaultConfig.ConfDir "templates" ∧
    ∀ (c : Config) (w : World) (c' : Config), initConfig c w = Except.ok c' →
      c'.ConfigDir = filepathJoin c'.ConfDir "conf.d" ∧
      c'.TemplateDir = filepathJoin c'.ConfDir "templates" :=
  ⟨rfl, rfl, rfl, rfl, rfl, rfl, initConfig_ok_dirs⟩

/-- Witness for C8: the generic derived-directories clause applied to
the default resolution itself. -/
theorem default_resolution_witness :
    resolvedDefaultConfig.ConfigDir = filepathJoin resolvedDefaultConfig.ConfDir "conf.d" ∧
    resolvedDefaultConfig.TemplateDir = filepathJoin resolvedDefaultConfig.ConfDir "templates" :=
  default_resolution.2.2.2.2.2.2 defaultConfig emptyWorld resolvedDefaultConfig
    default_resolution.1

end Confd
